import Mathlib

/-!
Verification of `src/src/utils/textstat-helper.py`.

The script reads one JSON object from standard input, extracts a `text`
field, computes 18 readability metrics with the external `textstat`
library, writes one JSON object to standard output and exits with 0 on
success and 1 on any error.  Below is a shallow embedding: JSON values,
Python truthiness, Python exceptions as values of `PyErr`, the external
library as a record of deterministic metric functions that may raise, and
the two source functions `analyze_text` and `main` as Lean functions.
-/

/-- JSON values as produced by the json module. -/
inductive Json where
  | null : Json
  | bool (b : Bool) : Json
  | num (q : ℚ) : Json
  | str (s : String) : Json
  | arr (xs : List Json) : Json
  | obj (fields : List (String × Json)) : Json
deriving Repr

/-- A Python exception reduced to what the script observes:
`str(e)` and `type(e).__name__`. -/
structure PyErr where
  msg : String
  typeName : String
deriving Repr, DecidableEq

/-- Python truthiness of a JSON value: None, False, 0, empty string,
empty list and empty dict are falsy. -/
def pyFalsy : Json → Bool
  | .null => true
  | .bool b => !b
  | .num q => q == 0
  | .str s => s.data.isEmpty
  | .arr xs => xs.isEmpty
  | .obj fs => fs.isEmpty

/-- Python's `str.strip()` with no argument: remove leading and trailing
whitespace. -/
def pyStrip (s : String) : String :=
  ⟨((s.data.dropWhile Char.isWhitespace).reverse.dropWhile
      Char.isWhitespace).reverse⟩

/-- Python type name of a JSON value (json maps numbers to int/float;
the distinction does not matter to the script, which only puts the name
in an error message). -/
def pyTypeName : Json → String
  | .null => "NoneType"
  | .bool _ => "bool"
  | .num _ => "float"
  | .str _ => "str"
  | .arr _ => "list"
  | .obj _ => "dict"

/-- `dict.get k dflt` over the field list of a parsed JSON object.
json.load keeps the last occurrence of a duplicated key, hence the
reverse lookup. -/
def pyGet (fields : List (String × Json)) (k : String) (dflt : Json) : Json :=
  match fields.reverse.lookup k with
  | some v => v
  | none => dflt

/-- A metric value returned by the library: a number (int or float) or a
short string label (the `text_standard` grade label). -/
inductive MetricValue where
  | num (q : ℚ)
  | str (s : String)
deriving Repr, DecidableEq

/-- Injection of metric values into JSON output values. -/
def MetricValue.toJson : MetricValue → Json
  | .num q => .num q
  | .str s => .str s

/-- Modelled from the spec: the external textstat library (not part of
this repository).  Each metric is an independent, deterministic, stateless
computation over the input text that either returns a value or raises an
exception ("any internal failure from the underlying metrics computation
→ propagated").  The record fixes one function per metric the script
calls; keyword arguments used by the script (`float_output=False`,
`ms_per_char=14.69`, `removepunct=True`, `ignore_spaces=True`) are fixed
at these call sites, so they are baked into the corresponding field. -/
structure TextstatLib where
  flesch_reading_ease : String → Except PyErr MetricValue
  flesch_kincaid_grade : String → Except PyErr MetricValue
  gunning_fog : String → Except PyErr MetricValue
  smog_index : String → Except PyErr MetricValue
  automated_readability_index : String → Except PyErr MetricValue
  coleman_liau_index : String → Except PyErr MetricValue
  linsear_write_formula : String → Except PyErr MetricValue
  dale_chall_readability_score : String → Except PyErr MetricValue
  difficult_words : String → Except PyErr MetricValue
  text_standard : String → Except PyErr MetricValue
  reading_time : String → Except PyErr MetricValue
  syllable_count : String → Except PyErr MetricValue
  lexicon_count : String → Except PyErr MetricValue
  sentence_count : String → Except PyErr MetricValue
  char_count : String → Except PyErr MetricValue
  letter_count : String → Except PyErr MetricValue
  polysyllabcount : String → Except PyErr MetricValue
  monosyllabcount : String → Except PyErr MetricValue

/-- The dict literal of `analyze_text`, evaluated in source order.  The
source writes the key `linsear_write_formula` twice (lines 26 and 29):
Python evaluates both value expressions, the key keeps its first
insertion position, and the second value overwrites the first.  A raised
exception in any call aborts the whole dict. -/
def analyze_dict (lib : TextstatLib) (s : String) :
    Except PyErr (List (String × MetricValue)) := do
  let fre ← lib.flesch_reading_ease s
  let fkg ← lib.flesch_kincaid_grade s
  let gf ← lib.gunning_fog s
  let smog ← lib.smog_index s
  let ari ← lib.automated_readability_index s
  let cli ← lib.coleman_liau_index s
  let _lwFirst ← lib.linsear_write_formula s
  let dc ← lib.dale_chall_readability_score s
  let dw ← lib.difficult_words s
  let lw ← lib.linsear_write_formula s
  let ts ← lib.text_standard s
  let rt ← lib.reading_time s
  let syl ← lib.syllable_count s
  let lex ← lib.lexicon_count s
  let sen ← lib.sentence_count s
  let ch ← lib.char_count s
  let le ← lib.letter_count s
  let poly ← lib.polysyllabcount s
  let mono ← lib.monosyllabcount s
  pure [("flesch_reading_ease", fre),
        ("flesch_kincaid_grade", fkg),
        ("gunning_fog", gf),
        ("smog_index", smog),
        ("automated_readability_index", ari),
        ("coleman_liau_index", cli),
        ("linsear_write_formula", lw),
        ("dale_chall_readability_score", dc),
        ("difficult_words", dw),
        ("text_standard", ts),
        ("reading_time", rt),
        ("syllable_count", syl),
        ("lexicon_count", lex),
        ("sentence_count", sen),
        ("char_count", ch),
        ("letter_count", le),
        ("polysyllabcount", poly),
        ("monosyllabcount", mono)]

/-- `analyze_text(text)`.  Guard: `if not text or not text.strip()`.
`not text` tests Python truthiness of any value; `text.strip()` raises
AttributeError when `text` is not a string. -/
def analyze_text (lib : TextstatLib) (text : Json) :
    Except PyErr (List (String × MetricValue)) :=
  if pyFalsy text then .error ⟨"Text cannot be empty", "ValueError"⟩
  else match text with
    | .str s =>
        if (pyStrip s).data.isEmpty then
          .error ⟨"Text cannot be empty", "ValueError"⟩
        else analyze_dict lib s
    | other =>
        .error ⟨pyTypeName other ++ " object has no attribute strip",
                "AttributeError"⟩

/-- Result of one process run: the single JSON value written to stdout
and the exit code. -/
structure RunResult where
  output : Json
  exitCode : Nat
deriving Repr

/-- The error envelope written by the except branch of `main`. -/
def errorEnvelope (e : PyErr) : Json :=
  .obj [("error", .str e.msg), ("type", .str e.typeName)]

/-- The expression `input_data.get("text", "")`: a dict lookup with
default, an AttributeError when `input_data` is not a dict. -/
def getTextField (input_data : Json) : Except PyErr Json :=
  match input_data with
  | .obj fields => .ok (pyGet fields "text" (.str ""))
  | other =>
      .error ⟨pyTypeName other ++ " object has no attribute get",
              "AttributeError"⟩

/-- The try block of `main`: `json.load` (its outcome is the `stdin`
argument, since the JSON parser is the standard library, not this
repository), `input_data.get("text", "")`, the `if not text` guard, then
`analyze_text`. -/
def mainTry (lib : TextstatLib) (stdin : Except PyErr Json) :
    Except PyErr (List (String × MetricValue)) := do
  let input_data ← stdin
  let text ← getTextField input_data
  if pyFalsy text then
    .error ⟨"No text provided in input JSON", "ValueError"⟩
  else
    analyze_text lib text

/-- `main()`: run the try block; on success dump the metrics dict and
exit 0, on any exception dump the error envelope and exit 1.  (The
source calls this `main`; that name is reserved in Lean.) -/
def mainRun (lib : TextstatLib) (stdin : Except PyErr Json) : RunResult :=
  match mainTry lib stdin with
  | .ok results => ⟨.obj (results.map fun p => (p.1, p.2.toJson)), 0⟩
  | .error e => ⟨errorEnvelope e, 1⟩

/-- The 18 metric key names, in the order the output dict holds them. -/
def metricKeys : List String :=
  ["flesch_reading_ease", "flesch_kincaid_grade", "gunning_fog",
   "smog_index", "automated_readability_index", "coleman_liau_index",
   "linsear_write_formula", "dale_chall_readability_score",
   "difficult_words", "text_standard", "reading_time", "syllable_count",
   "lexicon_count", "sentence_count", "char_count", "letter_count",
   "polysyllabcount", "monosyllabcount"]

/-- Modelled from the spec: reading time at the fixed rate of 14.69
milliseconds per character of the text (the textstat implementation is
not in this repository). -/
def readingTimeSpec (s : String) : ℚ := (s.length : ℚ) * (1469 / 100)

/-- Split a character list into maximal whitespace-free runs. -/
def wordsAux : List Char → List Char → List (List Char)
  | [], acc => if acc.isEmpty then [] else [acc.reverse]
  | c :: cs, acc =>
      if c.isWhitespace then
        if acc.isEmpty then wordsAux cs []
        else acc.reverse :: wordsAux cs []
      else wordsAux cs (c :: acc)

/-- Modelled from the spec: lexicon count is the count of words with
punctuation removed before counting — whitespace-separated tokens that
still contain an alphanumeric character once punctuation is dropped. -/
def lexiconCountSpec (s : String) : ℕ :=
  ((wordsAux s.data []).filter (fun w => w.any Char.isAlphanum)).length

/-- Sentence terminator characters. -/
def isSentenceEnd (c : Char) : Bool := c == '.' || c == '!' || c == '?'

/-- Modelled from the spec: sentence count — the number of maximal runs
of sentence-terminating punctuation in the text (the textstat
implementation is not in this repository). -/
def sentenceCountSpec (s : String) : ℕ :=
  (s.data.foldl
    (fun acc c =>
      if isSentenceEnd c && !acc.2 then (acc.1 + 1, true)
      else (acc.1, isSentenceEnd c))
    ((0 : ℕ), false)).1

/-- A concrete, total instantiation of the library used to instantiate
universally quantified theorems: the metrics with a spec model use it,
the rest return a fixed number. -/
def okLib : TextstatLib where
  flesch_reading_ease := fun _ => .ok (.num 0)
  flesch_kincaid_grade := fun _ => .ok (.num 0)
  gunning_fog := fun _ => .ok (.num 0)
  smog_index := fun _ => .ok (.num 0)
  automated_readability_index := fun _ => .ok (.num 0)
  coleman_liau_index := fun _ => .ok (.num 0)
  linsear_write_formula := fun _ => .ok (.num 0)
  dale_chall_readability_score := fun _ => .ok (.num 0)
  difficult_words := fun _ => .ok (.num 0)
  text_standard := fun _ => .ok (.str "5th and 6th grade")
  reading_time := fun t => .ok (.num (readingTimeSpec t))
  syllable_count := fun _ => .ok (.num 0)
  lexicon_count := fun t => .ok (.num (lexiconCountSpec t))
  sentence_count := fun t => .ok (.num (sentenceCountSpec t))
  char_count := fun _ => .ok (.num 0)
  letter_count := fun _ => .ok (.num 0)
  polysyllabcount := fun _ => .ok (.num 0)
  monosyllabcount := fun _ => .ok (.num 0)

/-- A second concrete library, everywhere different from `okLib` on the
constant metrics; used to show library-independence of error paths. -/
def zeroLib : TextstatLib where
  flesch_reading_ease := fun _ => .ok (.num 1)
  flesch_kincaid_grade := fun _ => .ok (.num 1)
  gunning_fog := fun _ => .ok (.num 1)
  smog_index := fun _ => .ok (.num 1)
  automated_readability_index := fun _ => .ok (.num 1)
  coleman_liau_index := fun _ => .ok (.num 1)
  linsear_write_formula := fun _ => .ok (.num 1)
  dale_chall_readability_score := fun _ => .ok (.num 1)
  difficult_words := fun _ => .ok (.num 1)
  text_standard := fun _ => .ok (.str "7th and 8th grade")
  reading_time := fun _ => .ok (.num 1)
  syllable_count := fun _ => .ok (.num 1)
  lexicon_count := fun _ => .ok (.num 1)
  sentence_count := fun _ => .ok (.num 1)
  char_count := fun _ => .ok (.num 1)
  letter_count := fun _ => .ok (.num 1)
  polysyllabcount := fun _ => .ok (.num 1)
  monosyllabcount := fun _ => .ok (.num 1)

/-- The example text of the spec. -/
def foxText : String := "The quick brown fox jumps over the lazy dog."

/-- Keys of the JSON object a run wrote, `[]` when the output is not an
object. -/
def runKeys (r : RunResult) : List String :=
  match r.output with
  | .obj fs => fs.map Prod.fst
  | _ => []

/-- The `type` field of the JSON object a run wrote. -/
def outType (r : RunResult) : Option Json :=
  match r.output with
  | .obj fs => fs.lookup "type"
  | _ => none

/-! ### Helper lemmas -/

theorem exceptBind_ok {α β : Type} {x : Except PyErr α}
    {f : α → Except PyErr β} {b : β} (h : x >>= f = .ok b) :
    ∃ a, x = .ok a ∧ f a = .ok b := by
  cases x with
  | error e => simp [Bind.bind, Except.bind] at h
  | ok a => exact ⟨a, rfl, by simpa [Bind.bind, Except.bind] using h⟩

theorem isEmpty_false_of_ne {α : Type} {l : List α} (h : l ≠ []) :
    l.isEmpty = false := by
  cases l with
  | nil => exact absurd rfl h
  | cons a t => rfl

theorem pyStrip_ne_nil {s : String} (h : (pyStrip s).data ≠ []) :
    s.data ≠ [] := by
  intro h0
  exact h (by simp [pyStrip, h0])

/-- Shape of a successful `analyze_dict` run: every library call
succeeded and the result list is the 18-entry dict in source order. -/
theorem analyze_dict_ok_shape (lib : TextstatLib) (s : String)
    (m : List (String × MetricValue)) (h : analyze_dict lib s = .ok m) :
    ∃ fre fkg gf smog ari cli lw dc dw ts rt syl lex sen ch le poly mono,
      lib.reading_time s = .ok rt ∧
      lib.lexicon_count s = .ok lex ∧
      lib.sentence_count s = .ok sen ∧
      m = [("flesch_reading_ease", fre),
           ("flesch_kincaid_grade", fkg),
           ("gunning_fog", gf),
           ("smog_index", smog),
           ("automated_readability_index", ari),
           ("coleman_liau_index", cli),
           ("linsear_write_formula", lw),
           ("dale_chall_readability_score", dc),
           ("difficult_words", dw),
           ("text_standard", ts),
           ("reading_time", rt),
           ("syllable_count", syl),
           ("lexicon_count", lex),
           ("sentence_count", sen),
           ("char_count", ch),
           ("letter_count", le),
           ("polysyllabcount", poly),
           ("monosyllabcount", mono)] := by
  unfold analyze_dict at h
  obtain ⟨fre, h1, h⟩ := exceptBind_ok h
  obtain ⟨fkg, h2, h⟩ := exceptBind_ok h
  obtain ⟨gf, h3, h⟩ := exceptBind_ok h
  obtain ⟨smog, h4, h⟩ := exceptBind_ok h
  obtain ⟨ari, h5, h⟩ := exceptBind_ok h
  obtain ⟨cli, h6, h⟩ := exceptBind_ok h
  obtain ⟨lw1, h7, h⟩ := exceptBind_ok h
  obtain ⟨dc, h8, h⟩ := exceptBind_ok h
  obtain ⟨dw, h9, h⟩ := exceptBind_ok h
  obtain ⟨lw, h10, h⟩ := exceptBind_ok h
  obtain ⟨ts, h11, h⟩ := exceptBind_ok h
  obtain ⟨rt, h12, h⟩ := exceptBind_ok h
  obtain ⟨syl, h13, h⟩ := exceptBind_ok h
  obtain ⟨lex, h14, h⟩ := exceptBind_ok h
  obtain ⟨sen, h15, h⟩ := exceptBind_ok h
  obtain ⟨ch, h16, h⟩ := exceptBind_ok h
  obtain ⟨le, h17, h⟩ := exceptBind_ok h
  obtain ⟨poly, h18, h⟩ := exceptBind_ok h
  obtain ⟨mono, h19, h⟩ := exceptBind_ok h
  simp only [Pure.pure, Except.pure, Except.ok.injEq] at h
  exact ⟨fre, fkg, gf, smog, ari, cli, lw, dc, dw, ts, rt, syl, lex, sen,
         ch, le, poly, mono, h12, h14, h15, h.symm⟩

/-- A successful `analyze_dict` run produces exactly the 18 metric keys,
in the order of the source dict literal. -/
theorem analyze_dict_keys (lib : TextstatLib) (s : String)
    (m : List (String × MetricValue)) (h : analyze_dict lib s = .ok m) :
    m.map Prod.fst = metricKeys := by
  obtain ⟨fre, fkg, gf, smog, ari, cli, lw, dc, dw, ts, rt, syl, lex, sen,
          ch, le, poly, mono, -, -, -, hm⟩ := analyze_dict_ok_shape lib s m h
  subst hm
  rfl

/-- A successful `analyze_text` run is a successful `analyze_dict` run. -/
theorem analyze_text_ok (lib : TextstatLib) (text : Json)
    (m : List (String × MetricValue)) (h : analyze_text lib text = .ok m) :
    ∃ s, text = .str s ∧ analyze_dict lib s = .ok m := by
  unfold analyze_text at h
  split at h
  · exact absurd h (by simp)
  · split at h
    · split at h
      · exact absurd h (by simp)
      · exact ⟨_, rfl, h⟩
    · exact absurd h (by simp)

/-- A successful `mainTry` run is a successful `analyze_dict` run. -/
theorem mainTry_ok (lib : TextstatLib) (stdin : Except PyErr Json)
    (m : List (String × MetricValue)) (h : mainTry lib stdin = .ok m) :
    ∃ s, analyze_dict lib s = .ok m := by
  unfold mainTry at h
  obtain ⟨input, h1, h⟩ := exceptBind_ok h
  obtain ⟨text, h2, h⟩ := exceptBind_ok h
  split at h
  · exact absurd h (by simp)
  · obtain ⟨s, -, hs⟩ := analyze_text_ok lib text m h
    exact ⟨s, hs⟩

/-- With an object on stdin whose `text` value is truthy, `mainTry` is
`analyze_text` on that value. -/
theorem mainTry_obj_truthy (lib : TextstatLib)
    (fields : List (String × Json)) (text : Json)
    (hf : pyGet fields "text" (.str "") = text)
    (ht : pyFalsy text = false) :
    mainTry lib (.ok (.obj fields)) = analyze_text lib text := by
  unfold mainTry
  simp [Bind.bind, Except.bind, Pure.pure, Except.pure, getTextField,
        hf, ht]

/-- With an object on stdin whose `text` value is falsy, `mainTry` raises
the no-text ValueError. -/
theorem mainTry_obj_falsy (lib : TextstatLib)
    (fields : List (String × Json))
    (ht : pyFalsy (pyGet fields "text" (.str "")) = true) :
    mainTry lib (.ok (.obj fields)) =
      .error ⟨"No text provided in input JSON", "ValueError"⟩ := by
  unfold mainTry
  simp [Bind.bind, Except.bind, Pure.pure, Except.pure, getTextField, ht]

/-- On a truthy, non-whitespace-only string, `analyze_text` is
`analyze_dict`. -/
theorem analyze_text_str (lib : TextstatLib) (s : String)
    (hδ : (pyStrip s).data ≠ []) :
    analyze_text lib (.str s) = analyze_dict lib s := by
  have h1 : s.data.isEmpty = false := isEmpty_false_of_ne (pyStrip_ne_nil hδ)
  have h2 : (pyStrip s).data.isEmpty = false := isEmpty_false_of_ne hδ
  unfold analyze_text
  simp [pyFalsy, h1, h2]

/-- Success path of a whole run, given that the metric calls succeed. -/
theorem mainRun_ok_of_analyze (lib : TextstatLib)
    (fields : List (String × Json)) (s : String)
    (hf : pyGet fields "text" (.str "") = .str s)
    (hδ : (pyStrip s).data ≠ [])
    (m : List (String × MetricValue)) (hok : analyze_dict lib s = .ok m) :
    mainRun lib (.ok (.obj fields)) =
      ⟨.obj (m.map fun p => (p.1, p.2.toJson)), 0⟩ := by
  have h1 : pyFalsy (.str s) = false := by
    simp [pyFalsy, isEmpty_false_of_ne (pyStrip_ne_nil hδ)]
  have h2 := mainTry_obj_truthy lib fields (.str s) hf h1
  rw [analyze_text_str lib s hδ, hok] at h2
  unfold mainRun
  rw [h2]

/-! ### Claims -/

/-- Claim C3: for every standard-input outcome, the program terminates by
writing exactly one JSON object to standard output and exits with a
defined code, 0 on success and 1 on any error; no run ends in an
unhandled exception (every exception reaches the top-level handler). -/
theorem c3_always_one_json_defined_exit (lib : TextstatLib)
    (stdin : Except PyErr Json) :
    ((mainRun lib stdin).exitCode = 0 ∨ (mainRun lib stdin).exitCode = 1) ∧
    ∃ fields, (mainRun lib stdin).output = .obj fields := by
  unfold mainRun
  cases h : mainTry lib stdin with
  | ok m => exact ⟨Or.inl rfl, _, rfl⟩
  | error e => exact ⟨Or.inr rfl, _, rfl⟩

/-- Claim C5: whenever the standard-input bytes do not parse as JSON
(the parse step raises `e`), the program writes the error envelope with
the message and category of `e` and exits with status 1. -/
theorem c5_parse_error_envelope (lib : TextstatLib) (e : PyErr) :
    mainRun lib (.error e) = ⟨errorEnvelope e, 1⟩ := rfl

/-- Claim C7: the adapter is deterministic — two runs on identical input
produce identical output and exit code (the embedded program is a pure
function of its library and its input; no hidden state enters). -/
theorem c7_deterministic (lib : TextstatLib)
    (stdin1 stdin2 : Except PyErr Json) (h : stdin1 = stdin2) :
    mainRun lib stdin1 = mainRun lib stdin2 := by rw [h]

/-- Witness for C7 at a concrete input. -/
theorem c7_witness :
    mainRun okLib (.ok (.obj [("text", Json.str "abc")])) =
      mainRun okLib (.ok (.obj [("text", Json.str "abc")])) :=
  c7_deterministic okLib (.ok (.obj [("text", Json.str "abc")]))
    (.ok (.obj [("text", Json.str "abc")])) rfl

/-- Claim C10: on a JSON object whose `text` key is absent or maps to a
falsy value (null, false, 0, empty string, empty array, empty object),
the run emits the envelope with message "No text provided in input JSON"
and type "ValueError", exits with 1, and invokes no metric computation —
the result is the same for every library. -/
theorem c10_falsy_text_short_circuit (lib lib2 : TextstatLib)
    (fields : List (String × Json))
    (h : pyFalsy (pyGet fields "text" (.str "")) = true) :
    mainRun lib (.ok (.obj fields)) =
      ⟨errorEnvelope ⟨"No text provided in input JSON", "ValueError"⟩, 1⟩ ∧
    mainRun lib (.ok (.obj fields)) = mainRun lib2 (.ok (.obj fields)) := by
  have h1 := mainTry_obj_falsy lib fields h
  have h2 := mainTry_obj_falsy lib2 fields h
  unfold mainRun
  rw [h1, h2]
  exact ⟨rfl, rfl⟩

/-- Witness for C10: `text` maps to null, two different libraries. -/
theorem c10_witness :
    mainRun okLib (.ok (.obj [("text", Json.null)])) =
      ⟨errorEnvelope ⟨"No text provided in input JSON", "ValueError"⟩, 1⟩ ∧
    mainRun okLib (.ok (.obj [("text", Json.null)])) =
      mainRun zeroLib (.ok (.obj [("text", Json.null)])) :=
  c10_falsy_text_short_circuit okLib zeroLib [("text", Json.null)] rfl

/-- Claim C1: for every JSON input object whose `text` field is a
non-empty, non-whitespace-only string (and whose metric computations,
delegated to the external library, succeed), the run writes a single
flat JSON object holding exactly the 18 named metric keys, each mapped
to a number or a string label, and exits with status 0. -/
theorem c1_success_output (lib : TextstatLib)
    (fields : List (String × Json)) (s : String)
    (hf : pyGet fields "text" (.str "") = .str s)
    (hδ : (pyStrip s).data ≠ [])
    (m : List (String × MetricValue)) (hok : analyze_dict lib s = .ok m) :
    mainRun lib (.ok (.obj fields)) =
      ⟨.obj (m.map fun p => (p.1, p.2.toJson)), 0⟩ ∧
    (m.map fun p => (p.1, p.2.toJson)).map Prod.fst = metricKeys ∧
    ∀ p ∈ (m.map fun p => (p.1, p.2.toJson)),
      (∃ q, p.2 = Json.num q) ∨ (∃ u, p.2 = Json.str u) := by
  refine ⟨mainRun_ok_of_analyze lib fields s hf hδ m hok, ?_, ?_⟩
  · have hk := analyze_dict_keys lib s m hok
    rw [List.map_map]
    simpa [Function.comp] using hk
  · intro p hp
    rw [List.mem_map] at hp
    obtain ⟨q, -, rfl⟩ := hp
    cases hq : q.2 with
    | num n => exact Or.inl ⟨n, by simp [MetricValue.toJson, hq]⟩
    | str u => exact Or.inr ⟨u, by simp [MetricValue.toJson, hq]⟩

/-- Witness for C1 at a concrete input and the concrete library. -/
theorem c1_witness :
    (mainRun okLib (.ok (.obj [("text", Json.str "Hello world.")]))).exitCode
      = 0 := by
  obtain ⟨h1, -, -⟩ := c1_success_output okLib
    [("text", Json.str "Hello world.")] "Hello world." rfl (by decide) _ rfl
  rw [h1]

/-- Claim C4: metric computation is all-or-nothing — every run either
outputs a JSON object holding exactly the 18 metric keys with exit
status 0, or outputs only the error envelope (message and category) with
exit status 1; no partial metric results ever appear. -/
theorem c4_all_or_nothing (lib : TextstatLib) (stdin : Except PyErr Json) :
    (∃ m : List (String × MetricValue),
        mainRun lib stdin = ⟨.obj (m.map fun p => (p.1, p.2.toJson)), 0⟩ ∧
        m.map Prod.fst = metricKeys) ∨
    (∃ e : PyErr, mainRun lib stdin = ⟨errorEnvelope e, 1⟩) := by
  unfold mainRun
  cases h : mainTry lib stdin with
  | ok m =>
      left
      obtain ⟨s, hs⟩ := mainTry_ok lib stdin m h
      exact ⟨m, rfl, analyze_dict_keys lib s m hs⟩
  | error e => exact Or.inr ⟨e, rfl⟩

/-- Counterexample for C2: the input whose `text` is the empty string is
answered with the message "No text provided in input JSON" — the missing-
key message — not an empty-text message; the empty-text message "Text
cannot be empty" is only produced for whitespace-only non-empty text. -/
theorem c2_counterexample :
    (mainRun okLib (.ok (.obj [("text", Json.str "")]))).output =
      errorEnvelope ⟨"No text provided in input JSON", "ValueError"⟩ ∧
    (mainRun okLib (.ok (.obj [("text", Json.str " ")]))).output =
      errorEnvelope ⟨"Text cannot be empty", "ValueError"⟩ ∧
    "No text provided in input JSON" ≠ "Text cannot be empty" :=
  ⟨rfl, rfl, by decide⟩

/-- Claim C2 (amended): an input whose `text` value is a string that is
empty after stripping produces the error envelope with type ValueError
and exit status 1; the message is "No text provided in input JSON" when
the string is empty (the same path as a missing `text` key, which yields
the empty-string default) and "Text cannot be empty" when it is
whitespace-only but non-empty. -/
theorem c2_blank_text_errors (lib : TextstatLib)
    (fields : List (String × Json)) (s : String)
    (hf : pyGet fields "text" (.str "") = .str s)
    (hws : (pyStrip s).data = []) :
    mainRun lib (.ok (.obj fields)) =
      ⟨errorEnvelope ⟨if s.data = [] then "No text provided in input JSON"
                      else "Text cannot be empty", "ValueError"⟩, 1⟩ := by
  by_cases hd : s.data = []
  · have ht : pyFalsy (pyGet fields "text" (.str "")) = true := by
      rw [hf]
      simp [pyFalsy, hd]
    have h1 := mainTry_obj_falsy lib fields ht
    unfold mainRun
    rw [h1, if_pos hd]
  · have ht : pyFalsy (.str s) = false := by
      simp [pyFalsy, isEmpty_false_of_ne hd]
    have h1 := mainTry_obj_truthy lib fields (.str s) hf ht
    have h2 : analyze_text lib (.str s) =
        .error ⟨"Text cannot be empty", "ValueError"⟩ := by
      unfold analyze_text
      simp [ht, hws]
    rw [h2] at h1
    unfold mainRun
    rw [h1, if_neg hd]

/-- Witness for C2 (amended): whitespace-only text. -/
theorem c2_witness :
    mainRun okLib (.ok (.obj [("text", Json.str " ")])) =
      ⟨errorEnvelope ⟨"Text cannot be empty", "ValueError"⟩, 1⟩ := by
  have h := c2_blank_text_errors okLib [("text", Json.str " ")] " " rfl
    (by decide)
  rw [if_neg (show ¬ (" " : String).data = [] by decide)] at h
  exact h

/-- Claim C6: with the library's reading-time metric at the fixed rate of
14.69 milliseconds per character, every successful run carries
`reading_time` equal to the character count times 14.69, and the value
scales linearly in the character count (additive over concatenation). -/
theorem c6_reading_time_linear (lib : TextstatLib) (s t : String)
    (hrt : lib.reading_time = fun u => .ok (.num (readingTimeSpec u)))
    (m : List (String × MetricValue)) (hok : analyze_dict lib s = .ok m) :
    m.lookup "reading_time" = some (.num ((s.length : ℚ) * (1469 / 100))) ∧
    readingTimeSpec (s ++ t) = readingTimeSpec s + readingTimeSpec t := by
  constructor
  · obtain ⟨fre, fkg, gf, smog, ari, cli, lw, dc, dw, ts, rt, syl, lex,
        sen, ch, le, poly, mono, hr, -, -, hm⟩ :=
      analyze_dict_ok_shape lib s m hok
    rw [hrt] at hr
    simp only [Except.ok.injEq] at hr
    subst hm
    rw [← hr]
    rfl
  · rcases s with ⟨a⟩
    rcases t with ⟨b⟩
    show readingTimeSpec ⟨a ++ b⟩ = _
    simp [readingTimeSpec, String.length]
    ring

/-- Witness for C6: concrete strings and the concrete library, whose
reading-time function is the 14.69 ms/char one. -/
theorem c6_witness :
    readingTimeSpec ("Hi." ++ "!") =
      readingTimeSpec "Hi." + readingTimeSpec "!" :=
  (c6_reading_time_linear okLib "Hi." "!" rfl _ rfl).2

/-- Counterexample for C8: on a concrete successful run, the output
object's keys are exactly the 18 distinct metric names, with no key
repeated and `linsear_write_formula` present exactly once — the source's
duplicated computation (lines 26 and 29) targets the same key, so no
metric is emitted under two different keys. -/
theorem c8_counterexample :
    runKeys (mainRun okLib (.ok (.obj [("text", Json.str "Hello world.")])))
      = metricKeys ∧
    metricKeys.Nodup ∧
    metricKeys.count "linsear_write_formula" = 1 :=
  ⟨rfl, by decide, by decide⟩

/-- Claim C8 (amended): the error handling returns the same error
category, ValueError, for both the missing-`text`-key case and the
(whitespace-only) empty-text case; and the source duplicates one
metric's computation — `linsear_write_formula` is evaluated twice — but
on the same key, so every successful output holds exactly the 18
distinct metric keys. -/
theorem c8_same_category_single_key (lib : TextstatLib) (s : String)
    (m : List (String × MetricValue)) (hm : analyze_dict lib s = .ok m) :
    outType (mainRun lib (.ok (.obj []))) = some (.str "ValueError") ∧
    outType (mainRun lib (.ok (.obj [("text", Json.str " ")]))) =
      some (.str "ValueError") ∧
    m.map Prod.fst = metricKeys ∧
    (m.map Prod.fst).Nodup ∧
    (m.map Prod.fst).count "linsear_write_formula" = 1 := by
  have hk := analyze_dict_keys lib s m hm
  have h1 := mainTry_obj_falsy lib [] (by rfl)
  have h2 := mainTry_obj_truthy lib [("text", Json.str " ")]
    (.str " ") rfl (by rfl)
  have h3 : analyze_text lib (.str " ") =
      .error ⟨"Text cannot be empty", "ValueError"⟩ := rfl
  rw [h3] at h2
  refine ⟨?_, ?_, hk, ?_, ?_⟩
  · unfold mainRun
    rw [h1]
    rfl
  · unfold mainRun
    rw [h2]
    rfl
  · rw [hk]; decide
  · rw [hk]; decide

/-- Witness for C8 (amended) at the concrete library. -/
theorem c8_witness :
    outType (mainRun okLib (.ok (.obj []))) = some (.str "ValueError") := by
  obtain ⟨h, -, -, -, -⟩ := c8_same_category_single_key okLib "Hi." _ rfl
  exact h

/-- Claim C9: on the input object with text "The quick brown fox jumps
over the lazy dog.", with the library's word and sentence counters as the
spec describes them (and the remaining metric computations succeeding),
the run exits with status 0 and its output has `sentence_count` 1,
`lexicon_count` 9, and all 18 metric fields present with number-or-string
values. -/
theorem c9_fox_example (lib : TextstatLib)
    (hlex : lib.lexicon_count = fun u => .ok (.num (lexiconCountSpec u)))
    (hsen : lib.sentence_count = fun u => .ok (.num (sentenceCountSpec u)))
    (m : List (String × MetricValue))
    (hok : analyze_dict lib foxText = .ok m) :
    mainRun lib (.ok (.obj [("text", .str foxText)])) =
      ⟨.obj (m.map fun p => (p.1, p.2.toJson)), 0⟩ ∧
    m.lookup "sentence_count" = some (.num 1) ∧
    m.lookup "lexicon_count" = some (.num 9) ∧
    m.map Prod.fst = metricKeys := by
  refine ⟨mainRun_ok_of_analyze lib [("text", Json.str foxText)] foxText
            rfl (by decide) m hok,
          ?_, ?_, analyze_dict_keys lib foxText m hok⟩ <;>
  · obtain ⟨fre, fkg, gf, smog, ari, cli, lw, dc, dw, ts, rt, syl, lex,
        sen, ch, le, poly, mono, -, hl, hs, hm⟩ :=
      analyze_dict_ok_shape lib foxText m hok
    rw [hlex] at hl
    rw [hsen] at hs
    simp only [Except.ok.injEq] at hl hs
    subst hm
    rw [← hl, ← hs]
    rfl

/-- Witness for C9 at the concrete library, whose word and sentence
counters are the spec-modelled ones. -/
theorem c9_witness :
    (mainRun okLib (.ok (.obj [("text", Json.str foxText)]))).exitCode
      = 0 := by
  obtain ⟨h1, -, -, -⟩ := c9_fox_example okLib rfl rfl _ rfl
  rw [h1]
